import Mathlib

/-!
Verification of the langchain-minds adapter specification.

The repository ships documentation (README, docs/tools.ipynb) for a thin
client: a credential reference (`AIMindEnvVar`), a data-source descriptor
(`AIMindDataSource`), a reasoning-endpoint wrapper (`AIMindAPIWrapper`) and
a query tool (`AIMindTool`).  The Python implementation module itself is not
part of the shipped sources, so the operational definitions below are
modelled from the specification text, keeping the names the documentation
uses.  Remote interaction is embedded as explicit state passing plus an
event trace of the create calls issued, and the remote chat interface as a
function from requests to responses.
-/

namespace LangchainMinds

/-- An environment: a partial map from variable names to string values. -/
def Env := String → Option String

/-- Update an environment, binding variable `k` to value `val`. -/
def setEnv (env : Env) (k val : String) : Env :=
  fun n => if n = k then some val else env n

/-- Modelled from the spec: the error taxonomy of section 7 — a missing
environment-backed credential, a provisioning failure, an authentication
failure, and a failed query call carrying status and body. -/
inductive MindsError where
  | MissingCredentialError (var : String)
  | RemoteProvisioningError (status : Nat) (body : String)
  | AuthenticationError
  | RemoteQueryError (status : Nat) (body : String)
deriving DecidableEq

/-- Modelled from the spec: `AIMindEnvVar` (the Credential Reference), a
deferred pointer to an environment variable, optionally flagged secret.
The implementation module is missing from the sources; the shape is taken
from section 3 of the spec and the README usage examples. -/
structure AIMindEnvVar where
  name : String
  is_secret : Bool
deriving DecidableEq

/-- Modelled from the spec: `resolve() -> string` fails with
`MissingCredentialError` if the underlying environment value is absent or
empty at call time; otherwise it returns the current value.  No caching:
the environment is passed in at each call. -/
def AIMindEnvVar.resolve (v : AIMindEnvVar) (env : Env) : Except MindsError String :=
  match env v.name with
  | none => .error (.MissingCredentialError v.name)
  | some s => if s = "" then .error (.MissingCredentialError v.name) else .ok s

/-- A connection-data value: either a literal or a credential reference. -/
inductive ConnValue where
  | lit (s : String)
  | ref (v : AIMindEnvVar)
deriving DecidableEq

/-- Modelled from the spec: the string representation of a connection value
used for logging; values behind secret-flagged credential references are
suppressed (only the variable name is shown), non-secret references show
their resolved value. -/
def logConnValue (env : Env) : ConnValue → String
  | ConnValue.lit s => s
  | ConnValue.ref v =>
    if v.is_secret then "<secret:" ++ v.name ++ ">"
    else
      match v.resolve env with
      | .ok s => s
      | .error _ => "<unresolved:" ++ v.name ++ ">"

/-- Modelled from the spec: resolve every credential reference embedded in
connection data, left to right, failing fast on the first unresolved one. -/
def resolveConnData (env : Env) : List (String × ConnValue) → Except MindsError (List (String × String))
  | [] => .ok []
  | (k, ConnValue.lit s) :: rest =>
    match resolveConnData env rest with
    | .error e => .error e
    | .ok r => .ok ((k, s) :: r)
  | (k, ConnValue.ref v) :: rest =>
    match v.resolve env with
    | .error e => .error e
    | .ok s =>
      match resolveConnData env rest with
      | .error e => .error e
      | .ok r => .ok ((k, s) :: r)

/-- Modelled from the spec: `AIMindDataSource` (the DataSourceDescriptor):
a required name plus optional description, engine, connection data and
tables, as in section 3 and the README examples. -/
structure AIMindDataSource where
  name : String
  description : Option String := none
  engine : Option String := none
  connection_data : Option (List (String × ConnValue)) := none
  tables : Option (List String) := none
deriving DecidableEq

/-- A descriptor is reuse-style when it supplies no configuration field
beyond the name. -/
def AIMindDataSource.isReuse (d : AIMindDataSource) : Bool :=
  d.description.isNone && d.engine.isNone && d.connection_data.isNone && d.tables.isNone

/-- The remote service state visible to the client: which data-source names
and which mind names already exist. -/
structure RemoteState where
  datasources : List String
  minds : List String
deriving DecidableEq

/-- A create call issued to the remote API, recorded in the event trace. -/
inductive Event where
  | createDS (name : String) (payload : List (String × String))
  | createMind (name : String) (ds_names : List String)
deriving DecidableEq

/-- Add a name to a name list if it is not already present. -/
def addName (n : String) (l : List String) : List String :=
  if l.contains n then l else n :: l

/-- Modelled from the spec: `ensure` for a data-source descriptor.  If the
name exists remotely and the descriptor is reuse-style, adopt the existing
resource with no create call; otherwise resolve every embedded credential
reference (failing fast before any create call) and issue exactly one
create call with the resolved payload. -/
def ensureDataSource (env : Env) (st : RemoteState) (d : AIMindDataSource) :
    Except MindsError (String × RemoteState) × List Event :=
  if st.datasources.contains d.name && d.isReuse then
    (.ok (d.name, st), [])
  else
    match resolveConnData env (d.connection_data.getD []) with
    | .error e => (.error e, [])
    | .ok payload =>
        (.ok (d.name, ⟨addName d.name st.datasources, st.minds⟩),
         [Event.createDS d.name payload])

/-- Modelled from the spec: ensure a sequence of data-source descriptors in
order, threading the remote state, collecting their resolved identities and
concatenating their event traces; a failure stops the sequence. -/
def ensureDataSources (env : Env) (st : RemoteState) :
    List AIMindDataSource → Except MindsError (List String × RemoteState) × List Event
  | [] => (.ok ([], st), [])
  | d :: rest =>
    match ensureDataSource env st d with
    | (.error e, tr) => (.error e, tr)
    | (.ok (id1, st1), tr) =>
      match ensureDataSources env st1 rest with
      | (.error e, tr2) => (.error e, tr ++ tr2)
      | (.ok (ids, st2), tr2) => (.ok (id1 :: ids, st2), tr ++ tr2)

/-- Modelled from the spec: `AIMindAPIWrapper` (the ReasoningEndpoint
descriptor): a mind name plus an ordered sequence of data-source
descriptors, as in section 3 and the README examples. -/
structure AIMindAPIWrapper where
  name : String
  datasources : List AIMindDataSource := []
deriving DecidableEq

/-- Modelled from the spec: `ensure` for a reasoning endpoint.  First every
nested data-source descriptor is ensured in the given order, collecting the
resolved identities; only then is the endpoint itself ensured, attaching
those identities.  A name-only wrapper naming an existing mind adopts it
with no create call. -/
def ensureMind (env : Env) (st : RemoteState) (m : AIMindAPIWrapper) :
    Except MindsError (String × RemoteState) × List Event :=
  match ensureDataSources env st m.datasources with
  | (.error e, tr) => (.error e, tr)
  | (.ok (ids, st1), tr) =>
    if st1.minds.contains m.name && m.datasources.isEmpty then
      (.ok (m.name, st1), tr)
    else
      (.ok (m.name, ⟨st1.datasources, addName m.name st1.minds⟩),
       tr ++ [Event.createMind m.name ids])

/-- A chat-style request: the addressed mind name and the user messages
sent (a single question per call). -/
structure ChatRequest where
  mind_name : String
  messages : List String
deriving DecidableEq

/-- A chat-style response from the remote API: an HTTP status, the raw
body, and the textual completions. -/
structure ChatResponse where
  status : Nat
  body : String
  choices : List String
deriving DecidableEq

/-- Modelled from the spec: the query operation `ask`.  It sends exactly
one chat-style request addressed to the mind, with the question as the sole
user message, and returns the first textual completion verbatim.  An
authentication failure (status 401) surfaces as `AuthenticationError`; any
other non-2xx status surfaces as `RemoteQueryError` with status and body.
The second component records the trace of requests issued — no retry. -/
def completions (remote : ChatRequest → ChatResponse) (mind q : String) :
    Except MindsError String × List ChatRequest :=
  let req : ChatRequest := ⟨mind, [q]⟩
  let r := remote req
  (if r.status = 401 then .error .AuthenticationError
   else if 200 ≤ r.status ∧ r.status < 300 then
     match r.choices with
     | [] => .error (.RemoteQueryError r.status r.body)
     | c :: _ => .ok c
   else .error (.RemoteQueryError r.status r.body),
   [req])

/-- Modelled from the spec: `run` on the wrapper forwards a question to the
chat interface addressed to the wrapped mind name. -/
def AIMindAPIWrapper.run (w : AIMindAPIWrapper) (remote : ChatRequest → ChatResponse)
    (q : String) : Except MindsError String × List ChatRequest :=
  completions remote w.name q

/-- Modelled from the spec: `AIMindTool`, the query tool.  It declares the
name `ai_mind` and wraps one API wrapper. -/
structure AIMindTool where
  api_wrapper : AIMindAPIWrapper
  name : String := "ai_mind"
deriving DecidableEq

/-- The response envelope returned for a structured tool-call invocation:
the answer text, the tool name, and the correlation identifier. -/
structure ToolMessage where
  content : String
  name : String
  tool_call_id : String
deriving DecidableEq

/-- The result of invoking the tool: either the bare answer string (direct
invocation) or a response envelope (tool-call invocation). -/
inductive InvokeOutput where
  | content (s : String)
  | message (m : ToolMessage)
deriving DecidableEq

/-- The argument dictionary passed to `invoke`, with the fields a
structured tool-call envelope may carry (`type`, `id`, `name`, `args`) and
the field a plain argument mapping carries (`query`). -/
structure InvokeInput where
  type : Option String := none
  id : Option String := none
  name : Option String := none
  args : Option (List (String × String)) := none
  query : Option String := none
deriving DecidableEq

/-- Look up a key in an argument mapping. -/
def lookupArg (args : List (String × String)) (k : String) : Option String :=
  (args.find? (fun p => p.1 == k)).map Prod.snd

/-- Modelled from the spec: tool invocation with its dual surface.  The
input is recognized as a tool-call envelope only when it carries
`type = "tool_call"` together with `id`, `name` and `args`; then the answer
is wrapped in a `ToolMessage` echoing the call identifier and the tool's
declared name.  Otherwise the input is a plain argument mapping and the
bare answer string is returned. -/
def AIMindTool.invoke (t : AIMindTool) (remote : ChatRequest → ChatResponse)
    (inp : InvokeInput) : Except MindsError InvokeOutput :=
  match inp.type, inp.id, inp.name, inp.args with
  | some ty, some cid, some _, some args =>
    if ty = "tool_call" then
      (t.api_wrapper.run remote ((lookupArg args "query").getD "")).1.map
        (fun ans => InvokeOutput.message ⟨ans, t.name, cid⟩)
    else
      (t.api_wrapper.run remote (inp.query.getD "")).1.map InvokeOutput.content
  | _, _, _, _ =>
    (t.api_wrapper.run remote (inp.query.getD "")).1.map InvokeOutput.content

/-- Claim C4: for every credential reference, `resolve` fails with
`MissingCredentialError` when the named environment variable is absent or
empty at the moment of the call, and — because each resolution re-reads the
current environment with no caching — succeeds and returns the current
value immediately after the caller sets the variable. -/
theorem resolve_reads_current_environment (v : AIMindEnvVar) (env : Env) (val : String)
    (hval : val ≠ "") :
    (env v.name = none → v.resolve env = .error (.MissingCredentialError v.name)) ∧
    (env v.name = some "" → v.resolve env = .error (.MissingCredentialError v.name)) ∧
    v.resolve (setEnv env v.name val) = .ok val := by
  refine ⟨fun h => ?_, fun h => ?_, ?_⟩
  · simp [AIMindEnvVar.resolve, h]
  · simp [AIMindEnvVar.resolve, h]
  · simp [AIMindEnvVar.resolve, setEnv, hval]

/-- Witness for C4 at the README demo input: resolution fails on the empty
environment and succeeds right after the variable is set. -/
theorem resolve_reads_current_environment_witness :
    ("demo_password" : String) ≠ "" ∧
    ((fun _ => none : Env) "POSTGRES_PASSWORD" = none →
      AIMindEnvVar.resolve ⟨"POSTGRES_PASSWORD", true⟩ (fun _ => none) =
        .error (.MissingCredentialError "POSTGRES_PASSWORD")) ∧
    AIMindEnvVar.resolve ⟨"POSTGRES_PASSWORD", true⟩
        (setEnv (fun _ => none) "POSTGRES_PASSWORD" "demo_password") = .ok "demo_password" :=
  ⟨by decide,
   (resolve_reads_current_environment ⟨"POSTGRES_PASSWORD", true⟩ (fun _ => none)
      "demo_password" (by decide)).1,
   (resolve_reads_current_environment ⟨"POSTGRES_PASSWORD", true⟩ (fun _ => none)
      "demo_password" (by decide)).2.2⟩

/-- Claim C8: the `is_secret` flag does not change resolution — two
resolutions differing only in `is_secret` under the same environment agree
exactly — and it only suppresses the value from the logged representation:
the logged form of a secret-flagged reference is the same under any two
environments, so the resolved value never appears in it. -/
theorem is_secret_advisory_only (n : String) (b1 b2 : Bool) (env env2 : Env) :
    AIMindEnvVar.resolve ⟨n, b1⟩ env = AIMindEnvVar.resolve ⟨n, b2⟩ env ∧
    logConnValue env (ConnValue.ref ⟨n, true⟩) = logConnValue env2 (ConnValue.ref ⟨n, true⟩) := by
  exact ⟨rfl, by simp [logConnValue]⟩

/-- Claim C2: for a descriptor with only `name` set whose name refers to an
existing remote resource, `ensure` returns the existing identity with an
empty event trace — zero create calls (adoption). -/
theorem ensure_adopts_existing (env : Env) (st : RemoteState) (d : AIMindDataSource)
    (hfound : st.datasources.contains d.name = true) (hreuse : d.isReuse = true) :
    ensureDataSource env st d = (.ok (d.name, st), []) := by
  have hmem : d.name ∈ st.datasources := by simpa using hfound
  simp [ensureDataSource, hmem, hreuse]

/-- Witness for C2 at the README demo input: adopting an existing
`demo_datasource` by a name-only descriptor. -/
theorem ensure_adopts_existing_witness :
    (RemoteState.mk ["demo_datasource"] []).datasources.contains "demo_datasource" = true ∧
    (AIMindDataSource.mk "demo_datasource" none none none none).isReuse = true ∧
    ensureDataSource (fun _ => none) ⟨["demo_datasource"], []⟩
        ⟨"demo_datasource", none, none, none, none⟩ =
      (.ok ("demo_datasource", ⟨["demo_datasource"], []⟩), []) :=
  ⟨by decide, by decide,
   ensure_adopts_existing (fun _ => none) ⟨["demo_datasource"], []⟩
     ⟨"demo_datasource", none, none, none, none⟩ (by decide) (by decide)⟩

/-- Claim C3: calling `ensure` twice in sequence with an identical
reuse-style (name-only) descriptor yields the same remote identity both
times and issues no create call on the second run. -/
theorem ensure_reuse_idempotent (env : Env) (st : RemoteState) (d : AIMindDataSource)
    (hreuse : d.isReuse = true) (id1 : String) (st1 : RemoteState) (tr1 : List Event)
    (h1 : ensureDataSource env st d = (.ok (id1, st1), tr1)) :
    ensureDataSource env st1 d = (.ok (id1, st1), []) := by
  have hr := hreuse
  simp only [AIMindDataSource.isReuse, Bool.and_eq_true, Option.isNone_iff_eq_none] at hr
  obtain ⟨⟨⟨hd, he⟩, hc⟩, ht⟩ := hr
  by_cases hmem : d.name ∈ st.datasources
  · simp only [ensureDataSource] at h1
    rw [if_pos (by simp [hmem, hreuse])] at h1
    rw [Prod.mk.injEq, Except.ok.injEq, Prod.mk.injEq] at h1
    obtain ⟨⟨hid, hst⟩, htr⟩ := h1
    subst hid; subst hst
    simp [ensureDataSource, hmem, hreuse]
  · simp only [ensureDataSource] at h1
    rw [if_neg (by simp [hmem]), hc] at h1
    simp only [Option.getD_none, resolveConnData] at h1
    rw [Prod.mk.injEq, Except.ok.injEq, Prod.mk.injEq] at h1
    obtain ⟨⟨hid, hst⟩, htr⟩ := h1
    subst hid; subst hst
    have hmem4 : d.name ∈ addName d.name st.datasources := by
      simp [addName, hmem]
    simp [ensureDataSource, hmem4, hreuse]

/-- Witness for C3 at the README demo input: the first `ensure` of a
name-only `demo_datasource` on an empty remote creates it; the second in
sequence returns the same identity with no create call. -/
theorem ensure_reuse_idempotent_witness :
    (AIMindDataSource.mk "demo_datasource" none none none none).isReuse = true ∧
    ensureDataSource (fun _ => none) ⟨[], []⟩ ⟨"demo_datasource", none, none, none, none⟩ =
      (.ok ("demo_datasource", ⟨["demo_datasource"], []⟩),
       [Event.createDS "demo_datasource" []]) ∧
    ensureDataSource (fun _ => none) ⟨["demo_datasource"], []⟩
        ⟨"demo_datasource", none, none, none, none⟩ =
      (.ok ("demo_datasource", ⟨["demo_datasource"], []⟩), []) :=
  ⟨by decide, by rfl,
   ensure_reuse_idempotent (fun _ => none) ⟨[], []⟩ ⟨"demo_datasource", none, none, none, none⟩
     (by decide) "demo_datasource" ⟨["demo_datasource"], []⟩
     [Event.createDS "demo_datasource" []] (by rfl)⟩

/-- Resolution fails with the error of the first unresolvable credential
reference: when every reference in the prefix resolves and `v` does not,
the whole resolution fails naming `v`. -/
theorem resolveConnData_first_failure (env : Env) (k : String) (v : AIMindEnvVar)
    (rest : List (String × ConnValue)) :
    ∀ pre : List (String × ConnValue),
      (∀ p ∈ pre, ∀ w : AIMindEnvVar, p.2 = ConnValue.ref w → ∃ s, w.resolve env = .ok s) →
      v.resolve env = .error (.MissingCredentialError v.name) →
      resolveConnData env (pre ++ (k, ConnValue.ref v) :: rest) =
        .error (.MissingCredentialError v.name) := by
  intro pre
  induction pre with
  | nil =>
    intro _ hv
    simp [resolveConnData, hv]
  | cons p pre ih =>
    intro hpre hv
    obtain ⟨k0, val0⟩ := p
    have htail := ih (fun p hp => hpre p (List.mem_cons_of_mem _ hp)) hv
    cases val0 with
    | lit s =>
      simp [resolveConnData, List.cons_append, htail]
    | ref w =>
      obtain ⟨s, hs⟩ := hpre (k0, ConnValue.ref w) (List.mem_cons_self _ _) w rfl
      simp [resolveConnData, List.cons_append, hs, htail]

/-- Claim C5: for a fully-configured descriptor whose name does not exist
remotely, `ensure` resolves every embedded credential reference and issues
exactly one create call carrying the resolved payload; if resolution fails,
`ensure` fails with the error of the first unresolved reference and the
event trace is empty — no create call, hence no partial provisioning. -/
theorem ensure_creates_exactly_once (env : Env) (st : RemoteState) (d : AIMindDataSource)
    (cd : List (String × ConnValue)) (hcd : d.connection_data = some cd)
    (hnew : d.name ∉ st.datasources) :
    (∀ payload, resolveConnData env cd = .ok payload →
        ensureDataSource env st d =
          (.ok (d.name, ⟨addName d.name st.datasources, st.minds⟩),
           [Event.createDS d.name payload])) ∧
    (∀ e, resolveConnData env cd = .error e →
        ensureDataSource env st d = (.error e, [])) ∧
    (∀ pre k v rest, cd = pre ++ (k, ConnValue.ref v) :: rest →
        (∀ p ∈ pre, ∀ w : AIMindEnvVar, p.2 = ConnValue.ref w → ∃ s, w.resolve env = .ok s) →
        v.resolve env = .error (.MissingCredentialError v.name) →
        ensureDataSource env st d = (.error (.MissingCredentialError v.name), [])) := by
  have hcond : ¬(st.datasources.contains d.name && d.isReuse) = true := by
    simp [hnew]
  refine ⟨?_, ?_, ?_⟩
  · intro payload hres
    simp only [ensureDataSource]
    rw [if_neg hcond, hcd]
    simp [hres]
  · intro e hres
    simp only [ensureDataSource]
    rw [if_neg hcond, hcd]
    simp [hres]
  · intro pre k v rest hdecomp hpre hv
    have hres := resolveConnData_first_failure env k v rest pre hpre hv
    rw [← hdecomp] at hres
    simp only [ensureDataSource]
    rw [if_neg hcond, hcd]
    simp [hres]

/-- Witness for C5 at the README demo input: the fully-configured
`demo_datasource` is created with one create call when the password
variable is set, and provisioning fails with no create call when it is
unset. -/
theorem ensure_creates_exactly_once_witness :
    ensureDataSource (setEnv (fun _ => none) "POSTGRES_PASSWORD" "demo_password") ⟨[], []⟩
        ⟨"demo_datasource", some "house sales data", some "postgres",
         some [("user", ConnValue.lit "demo_user"),
               ("password", ConnValue.ref ⟨"POSTGRES_PASSWORD", true⟩)],
         some ["house_sales"]⟩ =
      (.ok ("demo_datasource", ⟨["demo_datasource"], []⟩),
       [Event.createDS "demo_datasource"
         [("user", "demo_user"), ("password", "demo_password")]]) ∧
    ensureDataSource (fun _ => none) ⟨[], []⟩
        ⟨"demo_datasource", some "house sales data", some "postgres",
         some [("user", ConnValue.lit "demo_user"),
               ("password", ConnValue.ref ⟨"POSTGRES_PASSWORD", true⟩)],
         some ["house_sales"]⟩ =
      (.error (.MissingCredentialError "POSTGRES_PASSWORD"), []) :=
  ⟨(ensure_creates_exactly_once
      (setEnv (fun _ => none) "POSTGRES_PASSWORD" "demo_password") ⟨[], []⟩
      ⟨"demo_datasource", some "house sales data", some "postgres",
       some [("user", ConnValue.lit "demo_user"),
             ("password", ConnValue.ref ⟨"POSTGRES_PASSWORD", true⟩)],
       some ["house_sales"]⟩
      [("user", ConnValue.lit "demo_user"),
       ("password", ConnValue.ref ⟨"POSTGRES_PASSWORD", true⟩)]
      rfl (by simp)).1
      [("user", "demo_user"), ("password", "demo_password")] (by rfl),
   (ensure_creates_exactly_once (fun _ => none) ⟨[], []⟩
      ⟨"demo_datasource", some "house sales data", some "postgres",
       some [("user", ConnValue.lit "demo_user"),
             ("password", ConnValue.ref ⟨"POSTGRES_PASSWORD", true⟩)],
       some ["house_sales"]⟩
      [("user", ConnValue.lit "demo_user"),
       ("password", ConnValue.ref ⟨"POSTGRES_PASSWORD", true⟩)]
      rfl (by simp)).2.1
      (.MissingCredentialError "POSTGRES_PASSWORD") (by rfl)⟩

/-- `ensure` on a data-source descriptor resolves the identity to the
descriptor's own name. -/
theorem ensureDataSource_id (env : Env) (st : RemoteState) (d : AIMindDataSource)
    (id1 : String) (st1 : RemoteState) (tr : List Event)
    (h : ensureDataSource env st d = (.ok (id1, st1), tr)) : id1 = d.name := by
  simp only [ensureDataSource] at h
  split at h
  · rw [Prod.mk.injEq, Except.ok.injEq, Prod.mk.injEq] at h
    exact h.1.1.symm
  · split at h
    · simp at h
    · rw [Prod.mk.injEq, Except.ok.injEq, Prod.mk.injEq] at h
      exact h.1.1.symm

/-- Ensuring a sequence of descriptors collects exactly their names, in
order. -/
theorem ensureDataSources_ids (env : Env) :
    ∀ (l : List AIMindDataSource) (st : RemoteState) (ids : List String)
      (st2 : RemoteState) (tr : List Event),
      ensureDataSources env st l = (.ok (ids, st2), tr) →
      ids = l.map AIMindDataSource.name := by
  intro l
  induction l with
  | nil =>
    intro st ids st2 tr h
    simp only [ensureDataSources] at h
    rw [Prod.mk.injEq, Except.ok.injEq, Prod.mk.injEq] at h
    simp [← h.1.1]
  | cons d rest ih =>
    intro st ids st2 tr h
    simp only [ensureDataSources] at h
    split at h
    · simp at h
    · rename_i id1 st1 tr1 heq
      split at h
      · simp at h
      · rename_i ids1 st3 tr2 heq2
        rw [Prod.mk.injEq, Except.ok.injEq, Prod.mk.injEq] at h
        obtain ⟨⟨hids, hst⟩, htr⟩ := h
        subst hids
        have h1 := ensureDataSource_id env st d id1 st1 tr1 heq
        have h2 := ih st1 ids1 st3 tr2 heq2
        simp [h1, h2]

/-- Claim C6: ensuring a reasoning endpoint first ensures each nested data
source in the given sequence order, collecting their resolved identities —
the names, in order — and only then ensures the endpoint itself: its event
trace extends the data sources' trace, and every later event is the
endpoint's own create call carrying those identities. -/
theorem ensureMind_datasources_first (env : Env) (st : RemoteState) (m : AIMindAPIWrapper)
    (ids : List String) (st1 : RemoteState) (tr : List Event)
    (h : ensureDataSources env st m.datasources = (.ok (ids, st1), tr)) :
    ids = m.datasources.map AIMindDataSource.name ∧
    ∃ tail, (ensureMind env st m).2 = tr ++ tail ∧
      ∀ e ∈ tail, e = Event.createMind m.name ids := by
  refine ⟨ensureDataSources_ids env m.datasources st ids st1 tr h, ?_⟩
  by_cases hcond : m.name ∈ st1.minds ∧ m.datasources = []
  · refine ⟨[], ?_, by simp⟩
    simp only [ensureMind, h]
    rw [if_pos (by simp [hcond.1, hcond.2])]
    simp
  · refine ⟨[Event.createMind m.name ids], ?_, by simp⟩
    simp only [ensureMind, h]
    rw [if_neg (by simpa using hcond)]

/-- Witness for C6 at the README demo input: ensuring `demo_mind` with one
fully-configured data source ensures the data source first and then creates
the mind with the collected identity attached. -/
theorem ensureMind_datasources_first_witness :
    ensureDataSources (setEnv (fun _ => none) "POSTGRES_PASSWORD" "demo_password") ⟨[], []⟩
        [⟨"demo_datasource", some "house sales data", some "postgres",
          some [("user", ConnValue.lit "demo_user"),
                ("password", ConnValue.ref ⟨"POSTGRES_PASSWORD", true⟩)],
          some ["house_sales"]⟩] =
      (.ok (["demo_datasource"], ⟨["demo_datasource"], []⟩),
       [Event.createDS "demo_datasource"
         [("user", "demo_user"), ("password", "demo_password")]]) ∧
    (["demo_datasource"] =
      ([⟨"demo_datasource", some "house sales data", some "postgres",
         some [("user", ConnValue.lit "demo_user"),
               ("password", ConnValue.ref ⟨"POSTGRES_PASSWORD", true⟩)],
         some ["house_sales"]⟩] : List AIMindDataSource).map AIMindDataSource.name ∧
     ∃ tail,
       (ensureMind (setEnv (fun _ => none) "POSTGRES_PASSWORD" "demo_password") ⟨[], []⟩
          ⟨"demo_mind",
           [⟨"demo_datasource", some "house sales data", some "postgres",
             some [("user", ConnValue.lit "demo_user"),
                   ("password", ConnValue.ref ⟨"POSTGRES_PASSWORD", true⟩)],
             some ["house_sales"]⟩]⟩).2 =
         [Event.createDS "demo_datasource"
           [("user", "demo_user"), ("password", "demo_password")]] ++ tail ∧
       ∀ e ∈ tail, e = Event.createMind "demo_mind" ["demo_datasource"]) :=
  ⟨by rfl,
   ensureMind_datasources_first (setEnv (fun _ => none) "POSTGRES_PASSWORD" "demo_password")
     ⟨[], []⟩
     ⟨"demo_mind",
      [⟨"demo_datasource", some "house sales data", some "postgres",
        some [("user", ConnValue.lit "demo_user"),
              ("password", ConnValue.ref ⟨"POSTGRES_PASSWORD", true⟩)],
        some ["house_sales"]⟩]⟩
     ["demo_datasource"] ⟨["demo_datasource"], []⟩
     [Event.createDS "demo_datasource" [("user", "demo_user"), ("password", "demo_password")]]
     (by rfl)⟩

/-- Claim C7: for every question, when the remote chat response is
successful with a first completion `c`, `run` returns `c` verbatim — no
post-processing, truncation, or reformatting. -/
theorem ask_returns_first_completion (remote : ChatRequest → ChatResponse)
    (w : AIMindAPIWrapper) (q c : String) (rest : List String)
    (hok : 200 ≤ (remote ⟨w.name, [q]⟩).status ∧ (remote ⟨w.name, [q]⟩).status < 300)
    (hch : (remote ⟨w.name, [q]⟩).choices = c :: rest) :
    (w.run remote q).1 = .ok c := by
  have h401 : ¬(remote ⟨w.name, [q]⟩).status = 401 := by omega
  simp [AIMindAPIWrapper.run, completions, h401, hok, hch]

/-- Witness for C7: a successful demo response whose first completion is
returned unchanged. -/
theorem ask_returns_first_completion_witness :
    (200 ≤ (200 : Nat) ∧ (200 : Nat) < 300) ∧
    (AIMindAPIWrapper.run ⟨"demo_mind", []⟩
       (fun _ => ⟨200, "", ["The number of three-bedroom houses sold in 2008 was 8."]⟩)
       "How many three-bedroom houses were sold in 2008?").1 =
      .ok "The number of three-bedroom houses sold in 2008 was 8." :=
  ⟨by decide,
   ask_returns_first_completion
     (fun _ => ⟨200, "", ["The number of three-bedroom houses sold in 2008 was 8."]⟩)
     ⟨"demo_mind", []⟩ "How many three-bedroom houses were sold in 2008?"
     "The number of three-bedroom houses sold in 2008 was 8." [] (by decide) rfl⟩

/-- Claim C9: an authentication failure (status 401) from the remote API
surfaces as `AuthenticationError`, any other non-2xx response surfaces as
`RemoteQueryError` carrying the status and body, and in every case the
request trace holds exactly the one request — nothing is retried. -/
theorem ask_error_surface (remote : ChatRequest → ChatResponse) (w : AIMindAPIWrapper)
    (q : String) :
    ((remote ⟨w.name, [q]⟩).status = 401 →
      (w.run remote q).1 = .error .AuthenticationError) ∧
    ((remote ⟨w.name, [q]⟩).status ≠ 401 →
      ¬(200 ≤ (remote ⟨w.name, [q]⟩).status ∧ (remote ⟨w.name, [q]⟩).status < 300) →
      (w.run remote q).1 =
        .error (.RemoteQueryError (remote ⟨w.name, [q]⟩).status (remote ⟨w.name, [q]⟩).body)) ∧
    (w.run remote q).2 = [⟨w.name, [q]⟩] := by
  refine ⟨fun h => ?_, fun h1 h2 => ?_, ?_⟩
  · simp [AIMindAPIWrapper.run, completions, h]
  · simp [AIMindAPIWrapper.run, completions, h1, h2]
  · simp [AIMindAPIWrapper.run, completions]

/-- Witness for C9: a 401 response surfaces as an authentication error, a
500 response surfaces as a remote query error with status and body, and
exactly one request is sent. -/
theorem ask_error_surface_witness :
    (AIMindAPIWrapper.run ⟨"demo_mind", []⟩
       ((fun _ => ⟨401, "unauthorized", []⟩) : ChatRequest → ChatResponse) "Q").1 =
      .error .AuthenticationError ∧
    (AIMindAPIWrapper.run ⟨"demo_mind", []⟩
       ((fun _ => ⟨500, "boom", []⟩) : ChatRequest → ChatResponse) "Q").1 =
      .error (.RemoteQueryError 500 "boom") ∧
    (AIMindAPIWrapper.run ⟨"demo_mind", []⟩
       ((fun _ => ⟨500, "boom", []⟩) : ChatRequest → ChatResponse) "Q").2 =
      [⟨"demo_mind", ["Q"]⟩] :=
  ⟨(ask_error_surface ((fun _ => ⟨401, "unauthorized", []⟩) : ChatRequest → ChatResponse)
      ⟨"demo_mind", []⟩ "Q").1 rfl,
   (ask_error_surface ((fun _ => ⟨500, "boom", []⟩) : ChatRequest → ChatResponse)
      ⟨"demo_mind", []⟩ "Q").2.1 (by decide) (by decide),
   (ask_error_surface ((fun _ => ⟨500, "boom", []⟩) : ChatRequest → ChatResponse)
      ⟨"demo_mind", []⟩ "Q").2.2⟩

/-- Claim C1: invoking the tool via a structured tool-call envelope
carrying an identifier, a name and an argument payload with the question
yields a response envelope whose correlation identifier equals the
envelope's identifier and whose name equals the tool's declared name, with
the answer text as its content. -/
theorem invoke_tool_call_envelope (t : AIMindTool) (remote : ChatRequest → ChatResponse)
    (cid nm q ans : String) (args : List (String × String))
    (hq : lookupArg args "query" = some q)
    (hans : (t.api_wrapper.run remote q).1 = .ok ans) :
    t.invoke remote ⟨some "tool_call", some cid, some nm, some args, none⟩ =
      .ok (.message ⟨ans, t.name, cid⟩) := by
  simp [AIMindTool.invoke, hq, hans, Except.map]

/-- Witness for C1 at the notebook demo input: the envelope with `id="1"`
and the question yields a `ToolMessage` correlated to `"1"` under the name
`ai_mind`. -/
theorem invoke_tool_call_envelope_witness :
    lookupArg [("query", "How many three-bedroom houses were sold in 2008?")] "query" =
      some "How many three-bedroom houses were sold in 2008?" ∧
    AIMindTool.invoke ⟨⟨"demo_mind", []⟩, "ai_mind"⟩
        (fun _ => ⟨200, "",
          ["The query has been executed successfully. A total of 8 three-bedroom houses were sold in 2008."]⟩)
        ⟨some "tool_call", some "1", some "ai_mind",
         some [("query", "How many three-bedroom houses were sold in 2008?")], none⟩ =
      .ok (.message
        ⟨"The query has been executed successfully. A total of 8 three-bedroom houses were sold in 2008.",
         "ai_mind", "1"⟩) :=
  ⟨rfl,
   invoke_tool_call_envelope ⟨⟨"demo_mind", []⟩, "ai_mind"⟩
     (fun _ => ⟨200, "",
       ["The query has been executed successfully. A total of 8 three-bedroom houses were sold in 2008."]⟩)
     "1" "ai_mind" "How many three-bedroom houses were sold in 2008?"
     "The query has been executed successfully. A total of 8 three-bedroom houses were sold in 2008."
     [("query", "How many three-bedroom houses were sold in 2008?")] rfl rfl⟩

/-- Claim C10: an invocation is recognized as a tool-call envelope only
when the input carries `type = "tool_call"` alongside `id`, `name` and
`args` — only then is the result wrapped as a `ToolMessage` under the
tool's declared name, which defaults to `ai_mind` — whereas a plain
argument mapping returns the bare answer string unwrapped. -/
theorem invoke_envelope_recognition (t : AIMindTool) (remote : ChatRequest → ChatResponse)
    (inp : InvokeInput) (ans : String) :
    (inp.type ≠ some "tool_call" →
      (t.api_wrapper.run remote (inp.query.getD "")).1 = .ok ans →
      t.invoke remote inp = .ok (.content ans)) ∧
    ((inp.id = none ∨ inp.name = none ∨ inp.args = none) →
      (t.api_wrapper.run remote (inp.query.getD "")).1 = .ok ans →
      t.invoke remote inp = .ok (.content ans)) ∧
    (∀ cid nm args q,
      inp = ⟨some "tool_call", some cid, some nm, some args, inp.query⟩ →
      lookupArg args "query" = some q →
      (t.api_wrapper.run remote q).1 = .ok ans →
      t.invoke remote inp = .ok (.message ⟨ans, t.name, cid⟩)) ∧
    ({ api_wrapper := t.api_wrapper } : AIMindTool).name = "ai_mind" := by
  obtain ⟨oty, oid, onm, oargs, oq⟩ := inp
  refine ⟨?_, ?_, ?_, rfl⟩
  · intro hty hans
    cases oty with
    | none => simp [AIMindTool.invoke, hans, Except.map]
    | some ty =>
      have hty2 : ty ≠ "tool_call" := by simpa using hty
      cases oid <;> cases onm <;> cases oargs <;>
        simp [AIMindTool.invoke, hans, hty2, Except.map]
  · intro hnone hans
    rcases hnone with h | h | h
    · simp only at h
      subst h
      cases oty <;> cases onm <;> cases oargs <;>
        simp [AIMindTool.invoke, hans, Except.map]
    · simp only at h
      subst h
      cases oty <;> cases oid <;> cases oargs <;>
        simp [AIMindTool.invoke, hans, Except.map]
    · simp only at h
      subst h
      cases oty <;> cases oid <;> cases onm <;>
        simp [AIMindTool.invoke, hans, Except.map]
  · intro cid nm args q hinp hq hans
    injection hinp with h1 h2 h3 h4 h5
    subst h1; subst h2; subst h3; subst h4
    simp [AIMindTool.invoke, hq, hans, Except.map]

/-- Witness for C10: a plain mapping returns the bare answer, an input with
a different `type` is not recognized as an envelope, and only the full
envelope is wrapped as a `ToolMessage` under `ai_mind`. -/
theorem invoke_envelope_recognition_witness :
    AIMindTool.invoke ⟨⟨"demo_mind", []⟩, "ai_mind"⟩
        ((fun _ => ⟨200, "", ["8 houses."]⟩) : ChatRequest → ChatResponse)
        ⟨none, none, none, none, some "Q"⟩ =
      .ok (.content "8 houses.") ∧
    AIMindTool.invoke ⟨⟨"demo_mind", []⟩, "ai_mind"⟩
        ((fun _ => ⟨200, "", ["8 houses."]⟩) : ChatRequest → ChatResponse)
        ⟨some "other", some "1", some "ai_mind", some [("query", "Q")], some "Q"⟩ =
      .ok (.content "8 houses.") ∧
    AIMindTool.invoke ⟨⟨"demo_mind", []⟩, "ai_mind"⟩
        ((fun _ => ⟨200, "", ["8 houses."]⟩) : ChatRequest → ChatResponse)
        ⟨some "tool_call", some "1", some "ai_mind", some [("query", "Q")], none⟩ =
      .ok (.message ⟨"8 houses.", "ai_mind", "1"⟩) :=
  ⟨(invoke_envelope_recognition ⟨⟨"demo_mind", []⟩, "ai_mind"⟩
      ((fun _ => ⟨200, "", ["8 houses."]⟩) : ChatRequest → ChatResponse)
      ⟨none, none, none, none, some "Q"⟩ "8 houses.").1 (by decide) rfl,
   (invoke_envelope_recognition ⟨⟨"demo_mind", []⟩, "ai_mind"⟩
      ((fun _ => ⟨200, "", ["8 houses."]⟩) : ChatRequest → ChatResponse)
      ⟨some "other", some "1", some "ai_mind", some [("query", "Q")], some "Q"⟩
      "8 houses.").1 (by decide) rfl,
   (invoke_envelope_recognition ⟨⟨"demo_mind", []⟩, "ai_mind"⟩
      ((fun _ => ⟨200, "", ["8 houses."]⟩) : ChatRequest → ChatResponse)
      ⟨some "tool_call", some "1", some "ai_mind", some [("query", "Q")], none⟩
      "8 houses.").2.2.1 "1" "ai_mind" [("query", "Q")] "Q" rfl rfl rfl⟩

end LangchainMinds
